import Mathlib

/-!
Verification development for the Santa Clara County property scraper
(`src/main.py`).  The Python source is shallowly embedded below:

* pure helpers (`is_probable_apn`, `normalize_apn`, `classify_owner_type`,
  the field normalizers of `parse_property_page`) become Lean functions on
  `String` / `List Char`;
* the HTML document-object parser is an out-of-scope collaborator in the
  spec, so HTML markup is embedded as the node tree that collaborator
  produces (`Node`), and BeautifulSoup operations used by the source
  (`get_text(" ", strip=True)`, `find_all`, `find(string=...)`,
  `find_next_sibling`) are embedded over that tree;
* the regular expressions of the source are embedded with a small regex
  engine (`Re`) whose `reSearch` decides `re.search(pat, s) is not None`;
  the few group-extracting regexes are embedded as dedicated functions;
* the remote ArcGIS / assessor endpoints are an environment of response
  functions (`Env`); transport failure is `Except.error ()`;
* Python exceptions that can escape the embedded functions (the
  `ValueError` of `int("")` in `normalize_money`, the `KeyError`s of
  `feature["attributes"]` / `["APN"]` in `search_property`) are modelled
  with `Except PyErr`;
* `search_property` and `main` additionally emit the ordered trace of
  remote calls they issue, so that claims counting feature-query calls
  and page fetches can be stated.
-/

/-- Python exceptions that can escape the embedded code paths. -/
inductive PyErr where
  | keyError (k : String)
  | valueError
  deriving Repr, DecidableEq

/-! ### Character and string helpers (Python semantics) -/

/-- The apostrophe character (used inside several source string literals). -/
def apoC : Char := Char.ofNat 39

/-- The one-character apostrophe string. -/
def apoS : String := String.mk [apoC]

/-- Python `\s` on the ASCII inputs this program handles:
space, tab, newline, carriage return, vertical tab, form feed. -/
def isSpacePy (c : Char) : Bool :=
  c = ' ' || c = Char.ofNat 9 || c = Char.ofNat 10 || c = Char.ofNat 13 ||
  c = Char.ofNat 11 || c = Char.ofNat 12

/-- Python `\d` (decimal digit, ASCII). -/
def isDigitPy (c : Char) : Bool := '0' ≤ c && c ≤ '9'

/-- Python `\w` (word character) for the `\b` word boundary. -/
def isWordPy (c : Char) : Bool :=
  ('a' ≤ c && c ≤ 'z') || ('A' ≤ c && c ≤ 'Z') || isDigitPy c || c = '_'

/-- ASCII lower-casing of one character (what `re.I` compares through on
the ASCII data of this program). -/
def lowerC (c : Char) : Char :=
  if 'A' ≤ c && c ≤ 'Z' then Char.ofNat (c.toNat + 32) else c

/-- ASCII upper-casing of one character (Python `str.upper` on ASCII). -/
def upperC (c : Char) : Char :=
  if 'a' ≤ c && c ≤ 'z' then Char.ofNat (c.toNat - 32) else c

/-- Python `str.upper` (ASCII data). -/
def pyUpper (s : String) : String := String.mk (s.data.map upperC)

/-- Drop trailing characters satisfying `p`. -/
def dropEndWhile (p : Char → Bool) (l : List Char) : List Char :=
  (l.reverse.dropWhile p).reverse

/-- Python `str.strip()` on a character list. -/
def pyStripL (l : List Char) : List Char :=
  dropEndWhile isSpacePy (l.dropWhile isSpacePy)

/-- Python `str.strip()`. -/
def pyStrip (s : String) : String := String.mk (pyStripL s.data)

/-- Whether `pre` is a prefix of `l` (Boolean, character lists). -/
def isPreL : List Char → List Char → Bool
  | [], _ => true
  | _ :: _, [] => false
  | a :: as, b :: bs => a = b && isPreL as bs

/-- Whether `needle` occurs as a contiguous substring of `hay`
(Python `needle in hay`). -/
def isSubL (needle : List Char) : List Char → Bool
  | [] => isPreL needle []
  | l@(_ :: rest) => isPreL needle l || isSubL needle rest

/-- Python `needle in hay` on strings. -/
def pySub (needle hay : String) : Bool := isSubL needle.data hay.data

/-- Python `hay.endswith(suffix)`. -/
def pyEndsWith (suffix hay : String) : Bool :=
  isPreL suffix.data.reverse hay.data.reverse

/-- Python truthiness of an optional string (`None` and `""` are falsy). -/
def pyTruthyOS (o : Option String) : Bool :=
  match o with
  | none => false
  | some s => s ≠ ""

/-- Python `a or b` on optional strings. -/
def pyOrOS (a b : Option String) : Option String :=
  if pyTruthyOS a then a else b

/-- Worker for Python `str.replace(old, new)`: scan left to right,
replacing non-overlapping occurrences.  The extra structural counter only
bounds the recursion (each step consumes at least one input character, so
`l.length` steps always suffice) and keeps the definition reducible by
the kernel. -/
def pyReplaceGo (old new : List Char) : Nat → List Char → List Char
  | _, [] => []
  | 0, l => l
  | fuel + 1, c :: rest =>
    if old ≠ [] && isPreL old (c :: rest) then
      new ++ pyReplaceGo old new fuel ((c :: rest).drop old.length)
    else
      c :: pyReplaceGo old new fuel rest

/-- Python `str.replace(old, new)` on character lists, used by
`extract_situs_from_feature` with `("  ", " ")`. -/
def pyReplaceL (old new l : List Char) : List Char :=
  pyReplaceGo old new l.length l

/-- Python `str.replace` on strings. -/
def pyReplace (old new s : String) : String :=
  String.mk (pyReplaceL old.data new.data s.data)

/-- Parse a non-empty all-digit character list as a natural number;
`none` models the `ValueError` of Python `int()` on anything else
(in particular on the empty string). -/
def parseDec (l : List Char) : Option Nat :=
  if l = [] then none
  else if l.all isDigitPy then
    some (l.foldl (fun acc c => acc * 10 + (c.toNat - 48)) 0)
  else none

/-! ### Regex engine

Just enough of Python `re` for the patterns of `src/main.py`: single
character classes, concatenation, alternation, Kleene star over a
character class, and the `\b` word boundary.  `reSearch r s` decides
`re.search(pat, s) is not None` for the embedded pattern `r`:
the matcher explores every alternative and every star split, so greediness
is irrelevant for this Boolean question, exactly as for `re.search`'s
success/failure. -/

inductive Re where
  | emp : Re
  | tok : (Char → Bool) → Re
  | seq : Re → Re → Re
  | alt : Re → Re → Re
  | starTok : (Char → Bool) → Re
  | bnd : Re

/-- `isWordPy` on an optional (preceding) character; `none` = string edge. -/
def isWordO (o : Option Char) : Bool :=
  match o with
  | none => false
  | some c => isWordPy c

/-- `isWordPy` on the head of the remaining input; `[]` = string edge. -/
def isWordHead (cs : List Char) : Bool :=
  match cs with
  | [] => false
  | c :: _ => isWordPy c

/-- All ways for a starred character class to consume a prefix. -/
def starGo (p : Char → Bool) (prev : Option Char) (cs : List Char)
    (k : Option Char → List Char → Bool) : Bool :=
  k prev cs ||
    match cs with
    | [] => false
    | c :: rest => p c && starGo p (some c) rest k

/-- Regex matcher in continuation-passing style.  `prev` is the character
just before the current position (for `\b`). -/
def reMat : Re → Option Char → List Char → (Option Char → List Char → Bool) → Bool
  | .emp, prev, cs, k => k prev cs
  | .tok p, _, cs, k =>
    match cs with
    | [] => false
    | c :: rest => p c && k (some c) rest
  | .seq a b, prev, cs, k => reMat a prev cs (fun p2 cs2 => reMat b p2 cs2 k)
  | .alt a b, prev, cs, k => reMat a prev cs k || reMat b prev cs k
  | .starTok p, prev, cs, k => starGo p prev cs k
  | .bnd, prev, cs, k => (isWordO prev != isWordHead cs) && k prev cs

/-- Try to match `r` starting at every position (Python `re.search`). -/
def reSearchFrom (r : Re) (prev : Option Char) (cs : List Char) : Bool :=
  reMat r prev cs (fun _ _ => true) ||
    match cs with
    | [] => false
    | c :: rest => reSearchFrom r (some c) rest

/-- `re.search(pat, s) is not None` for the embedded pattern. -/
def reSearch (r : Re) (s : String) : Bool := reSearchFrom r none s.data

/-- Case-insensitive literal character (a pattern compiled with `re.I`). -/
def ciTok (c : Char) : Re := .tok (fun x => lowerC x = lowerC c)

/-- Case-insensitive literal string. -/
def ciStr (s : String) : Re :=
  s.data.foldr (fun c acc => Re.seq (ciTok c) acc) .emp

/-- Concatenation of a pattern list. -/
def rcat (l : List Re) : Re := l.foldr Re.seq .emp

/-- `X?` (optional). -/
def ropt (r : Re) : Re := .alt r .emp

/-- `\s*`. -/
def spStar : Re := .starTok isSpacePy

/-- `\s+`. -/
def spPlus : Re := .seq (.tok isSpacePy) spStar

/-! ### The label alias patterns of `_LABEL_ALIASES` -/

/-- `\bAPN\b` -/
def pat_apn_word : Re := rcat [.bnd, ciStr "APN", .bnd]

/-- `Assessor'?s?\s+Parcel\s+Number` -/
def pat_assessors_parcel_number : Re :=
  rcat [ciStr "Assessor", ropt (ciTok apoC), ropt (ciTok 's'), spPlus,
        ciStr "Parcel", spPlus, ciStr "Number"]

/-- `Situs\s+Address` -/
def pat_situs_address : Re := rcat [ciStr "Situs", spPlus, ciStr "Address"]

/-- `Property\s+Address` -/
def pat_property_address : Re := rcat [ciStr "Property", spPlus, ciStr "Address"]

/-- `Mailing\s+Address` -/
def pat_mailing_address : Re := rcat [ciStr "Mailing", spPlus, ciStr "Address"]

/-- `Owner\s*Name` -/
def pat_owner_name : Re := rcat [ciStr "Owner", spStar, ciStr "Name"]

/-- `Assessee\s*Name` -/
def pat_assessee_name : Re := rcat [ciStr "Assessee", spStar, ciStr "Name"]

/-- `Homeowner'?s?\s+Exemption` -/
def pat_homeowner_exemption : Re :=
  rcat [ciStr "Homeowner", ropt (ciTok apoC), ropt (ciTok 's'), spPlus,
        ciStr "Exemption"]

/-- `Use\s*Code` -/
def pat_use_code : Re := rcat [ciStr "Use", spStar, ciStr "Code"]

/-- `Year\s*Built` -/
def pat_year_built : Re := rcat [ciStr "Year", spStar, ciStr "Built"]

/-- `Living\s*Area` -/
def pat_living_area : Re := rcat [ciStr "Living", spStar, ciStr "Area"]

/-- `Building\s*Area` -/
def pat_building_area : Re := rcat [ciStr "Building", spStar, ciStr "Area"]

/-- `Sq\s*Ft` -/
def pat_sq_ft : Re := rcat [ciStr "Sq", spStar, ciStr "Ft"]

/-- `Lot\s*(Area|Size|Square\s*Feet)` -/
def pat_lot : Re :=
  rcat [ciStr "Lot", spStar,
        .alt (ciStr "Area")
          (.alt (ciStr "Size") (rcat [ciStr "Square", spStar, ciStr "Feet"]))]

/-- `Document\s*(No\.?|Number)|Doc\s*#` -/
def pat_doc_number : Re :=
  .alt (rcat [ciStr "Document", spStar,
              .alt (rcat [ciStr "No", ropt (ciTok '.')]) (ciStr "Number")])
       (rcat [ciStr "Doc", spStar, ciTok '#'])

/-- `(Recording|Transfer)\s*Date` -/
def pat_recording_date : Re :=
  rcat [.alt (ciStr "Recording") (ciStr "Transfer"), spStar, ciStr "Date"]

/-- `(Sales|Indicated)\s*(Price|Net\s*Value)` -/
def pat_sales_price : Re :=
  rcat [.alt (ciStr "Sales") (ciStr "Indicated"), spStar,
        .alt (ciStr "Price") (rcat [ciStr "Net", spStar, ciStr "Value"])]

/-- `Land\s*Value` -/
def pat_land_value : Re := rcat [ciStr "Land", spStar, ciStr "Value"]

/-- `(Improvement|Improvements)\s*Value` -/
def pat_impr_value : Re :=
  rcat [.alt (ciStr "Improvement") (ciStr "Improvements"), spStar, ciStr "Value"]

/-- `Total\s*(Assessed\s*)?Value` -/
def pat_total_value : Re :=
  rcat [ciStr "Total", spStar, ropt (rcat [ciStr "Assessed", spStar]),
        ciStr "Value"]

/-- `(Roll|Tax|Assessment)\s*Year` -/
def pat_assessed_year : Re :=
  rcat [.alt (ciStr "Roll") (.alt (ciStr "Tax") (ciStr "Assessment")), spStar,
        ciStr "Year"]

/-- `_LABEL_ALIASES["apn"]` -/
def aliases_apn : List Re := [pat_apn_word, pat_assessors_parcel_number]

/-- `_LABEL_ALIASES["situs_address"]` -/
def aliases_situs : List Re := [pat_situs_address, pat_property_address]

/-- `_LABEL_ALIASES["mailing_address"]` -/
def aliases_mailing : List Re := [pat_mailing_address]

/-- `_LABEL_ALIASES["owner_name"]` -/
def aliases_owner : List Re := [pat_owner_name, pat_assessee_name]

/-- `_LABEL_ALIASES["homeowner_exemption"]` -/
def aliases_hx : List Re := [pat_homeowner_exemption]

/-- `_LABEL_ALIASES["use_code"]` -/
def aliases_use_code : List Re := [pat_use_code]

/-- `_LABEL_ALIASES["year_built"]` -/
def aliases_year_built : List Re := [pat_year_built]

/-- `_LABEL_ALIASES["living_sqft"]` -/
def aliases_living : List Re := [pat_living_area, pat_building_area, pat_sq_ft]

/-- `_LABEL_ALIASES["lot_sqft"]` -/
def aliases_lot : List Re := [pat_lot]

/-- `_LABEL_ALIASES["doc_number"]` -/
def aliases_doc : List Re := [pat_doc_number]

/-- `_LABEL_ALIASES["recording_date"]` -/
def aliases_rec_date : List Re := [pat_recording_date]

/-- `_LABEL_ALIASES["sales_price"]` -/
def aliases_price : List Re := [pat_sales_price]

/-- `_LABEL_ALIASES["assessed_land"]` -/
def aliases_land : List Re := [pat_land_value]

/-- `_LABEL_ALIASES["assessed_impr"]` -/
def aliases_impr : List Re := [pat_impr_value]

/-- `_LABEL_ALIASES["assessed_total"]` -/
def aliases_total : List Re := [pat_total_value]

/-- `_LABEL_ALIASES["assessed_year"]` -/
def aliases_year : List Re := [pat_assessed_year]

/-- `\b(yes|y|true)\b` (the affirmative check for the exemption flag). -/
def pat_affirmative : Re :=
  rcat [.bnd, .alt (ciStr "yes") (.alt (ciStr "y") (ciStr "true")), .bnd]

/-! ### HTML node trees (output of the out-of-scope document parser) -/

/-- A parsed HTML node: an element with a tag and children, or a text
(`NavigableString`) node. -/
inductive Node where
  | elem : String → List Node → Node
  | text : String → Node

mutual

/-- All descendant text-node strings of a node, in document order
(BeautifulSoup `.strings`). -/
def textsOf : Node → List String
  | .text s => [s]
  | .elem _ cs => textsOfList cs

/-- `textsOf` over a sibling list. -/
def textsOfList : List Node → List String
  | [] => []
  | n :: rest => textsOf n ++ textsOfList rest

end

/-- BeautifulSoup `get_text(" ", strip=True)`: strip each descendant
string, drop the empties, join with a single space. -/
def getTextStrip (n : Node) : String :=
  " ".intercalate (((textsOf n).map pyStrip).filter (· ≠ ""))

mutual

/-- All descendant elements whose tag is in `tags`, in document order
(BeautifulSoup `find_all`). -/
def findAllTags (tags : List String) : Node → List Node
  | .text _ => []
  | .elem t cs =>
    (if tags.contains t then [Node.elem t cs] else []) ++ findAllTagsList tags cs

/-- `findAllTags` over a sibling list. -/
def findAllTagsList (tags : List String) : List Node → List Node
  | [] => []
  | n :: rest => findAllTags tags n ++ findAllTagsList tags rest

end

/-- Result of looking for the first matching text node (document order):
not found, found as a direct child of the current list's parent, or found
deeper with the parent's next sibling element already resolved. -/
inductive FindRes where
  | notFound : FindRes
  | foundDirect : FindRes
  | found : Option Node → FindRes

/-- First element node of a sibling list (BeautifulSoup
`find_next_sibling()` skips string nodes). -/
def firstElem : List Node → Option Node
  | [] => none
  | .elem t cs :: _ => some (.elem t cs)
  | .text _ :: rest => firstElem rest

mutual

/-- Look for the first text node of a subtree whose string satisfies `p`
(document order): `.foundDirect` when it is a direct child of this
node's children list (so this node is its parent), `.found` when it was
found deeper with the parent's next sibling already resolved. -/
def findLabelSibN (p : String → Bool) : Node → FindRes
  | .text s => if p s then .foundDirect else .notFound
  | .elem _ cs => findLabelSibL p cs

/-- Walk a sibling list looking for the first matching text node; when a
child element reports a direct-child match, that element is the parent,
so resolve `lab.parent.find_next_sibling()` among the remaining
siblings. -/
def findLabelSibL (p : String → Bool) : List Node → FindRes
  | [] => .notFound
  | .text s :: rest =>
    if p s then .foundDirect else findLabelSibL p rest
  | .elem t cs :: rest =>
    match findLabelSibN p (.elem t cs) with
    | .foundDirect => .found (firstElem rest)
    | .found sib => .found sib
    | .notFound => findLabelSibL p rest

end

/-- Entry point of the text-node search over the document roots. -/
def findLabelSib (p : String → Bool) (roots : List Node) : FindRes :=
  findLabelSibL p roots

/-- The document-wide fallback of `find_first`: find the first text node
matching the pattern, take its parent's next sibling element's stripped
text; `none` when that chain yields nothing non-empty.  A match that is a
direct child of the document root has the soup itself as parent, whose
`find_next_sibling()` is `None`. -/
def docFallback (r : Re) (roots : List Node) : Option String :=
  match findLabelSib (reSearch r) roots with
  | .found (some sib) =>
    let txt := getTextStrip sib
    if txt ≠ "" then some txt else none
  | _ => none

/-! ### Table harvesting and label resolution (`parse_property_page`) -/

/-- `dict.setdefault`-style insert: first occurrence of a key wins. -/
def kvInsert (kv : List (String × String)) (k v : String) : List (String × String) :=
  if (kv.find? (fun e => e.1 = k)).isSome then kv else kv ++ [(k, v)]

/-- Harvest one table row into the label→value mapping: for exactly two
cells the first is the label and the second the value; for more than two
cells the remaining cells' texts are joined with a space; empty labels or
values are skipped, and an existing label is never overwritten. -/
def harvestRow (kv : List (String × String)) (tr : Node) : List (String × String) :=
  let cells := (match tr with | .elem _ cs => findAllTagsList ["th", "td"] cs | .text _ => [])
  match cells with
  | [c1, c2] =>
    let k := getTextStrip c1
    let v := getTextStrip c2
    if k ≠ "" && v ≠ "" then kvInsert kv k v else kv
  | c1 :: c2 :: crest =>
    let k := getTextStrip c1
    let v := " ".intercalate ((c2 :: crest).map getTextStrip)
    if k ≠ "" && v ≠ "" then kvInsert kv k v else kv
  | _ => kv

/-- The label→value mapping built from all `<tr>` rows of the document. -/
def harvest (roots : List Node) : List (String × String) :=
  (findAllTagsList ["tr"] roots).foldl harvestRow []

/-- `find_first(patterns)`: for each pattern in declared order, first scan
the harvested mapping for a matching key with a non-empty value, then try
the document-wide sibling-text fallback for that same pattern; the first
non-empty result wins, else move to the next pattern. -/
def find_first (patterns : List Re) (kv : List (String × String))
    (roots : List Node) : Option String :=
  match patterns with
  | [] => none
  | p :: ps =>
    match kv.find? (fun e => reSearch p e.1 && e.2 ≠ "") with
    | some e => some e.2
    | none =>
      match docFallback p roots with
      | some txt => some txt
      | none => find_first ps kv roots

/-! ### Field normalizers of `parse_property_page` -/

/-- Split on every newline / carriage-return character.  After the
stripping and non-empty filtering that every caller applies, this is
exactly `re.split(r"[\n\r]+", s)`. -/
def splitNLRaw (l : List Char) : List (List Char) :=
  match l with
  | [] => [[]]
  | c :: rest =>
    let tail := splitNLRaw rest
    if c = Char.ofNat 10 || c = Char.ofNat 13 then
      [] :: tail
    else
      match tail with
      | [] => [[c]]
      | h :: t => (c :: h) :: t

/-- `[ln.strip() for ln in re.split(r"[\n\r]+", s) if ln.strip()]`. -/
def strippedLines (s : String) : List String :=
  ((splitNLRaw s.data).map (fun l => String.mk (pyStripL l))).filter (· ≠ "")

/-- Match `\$?\s*([\d,]+)` at the current position, returning group 1.
The optional dollar sign and greedy `\s*` are deterministic here because
`\s` and `[\d,]` are disjoint. -/
def matchMoneyAt (cs : List Char) : Option (List Char) :=
  let afterDollar := match cs with | '$' :: r => r | _ => cs
  let afterSpace := afterDollar.dropWhile isSpacePy
  match afterSpace with
  | c :: _ =>
    if isDigitPy c || c = ',' then
      some (afterSpace.takeWhile (fun x => isDigitPy x || x = ','))
    else none
  | [] => none

/-- `re.search(r"\$?\s*([\d,]+)", s)`: group 1 of the leftmost match. -/
def searchMoney : List Char → Option (List Char)
  | [] => none
  | c :: rest =>
    match matchMoneyAt (c :: rest) with
    | some g => some g
    | none => searchMoney rest

/-- `normalize_money`: take the first digit-or-comma run (optionally led
by a dollar sign), remove commas, parse as `int`.  A run consisting only
of commas makes `int("")` raise `ValueError` — modelled as `.error`. -/
def normalize_money (val : Option String) : Except PyErr (Option Int) :=
  match val with
  | none => .ok none
  | some v =>
    if v = "" then .ok none
    else
      match searchMoney v.data with
      | none => .ok none
      | some grp =>
        match parseDec (grp.filter (· ≠ ',')) with
        | some n => .ok (some (n : Int))
        | none => .error .valueError

/-- `re.search(r"(\d{4})", s)`: the leftmost run of four digits. -/
def find4Digits : List Char → Option Int
  | [] => none
  | c :: rest =>
    match c :: rest with
    | a :: b :: c2 :: d :: _ =>
      if isDigitPy a && isDigitPy b && isDigitPy c2 && isDigitPy d then
        match parseDec [a, b, c2, d] with
        | some n => some (n : Int)
        | none => none
      else find4Digits rest
    | _ => none

/-- `safe_int`: first 4-digit run as an int, `None` when the input is
falsy or has no such run. -/
def safe_int (s : Option String) : Option Int :=
  match s with
  | none => none
  | some v => if v = "" then none else find4Digits v.data

/-- Is `c` an ASCII uppercase letter (the `[A-Z]` class)? -/
def isUpperAZ (c : Char) : Bool := 'A' ≤ c && c ≤ 'Z'

/-- Split `l` at the first comma: the part before it and the part after
it; `none` when there is no comma. -/
def splitFirstComma : List Char → Option (List Char × List Char)
  | [] => none
  | c :: rest =>
    if c = ',' then some ([], rest)
    else
      match splitFirstComma rest with
      | some (a, b) => some (c :: a, b)
      | none => none

/-- `split_city_state_zip`: match
`^\s*([^,]+)\s*,\s*([A-Z]{2})\s+(\d{5}(?:-\d{4})?)` and return the
stripped city, the state and the zip.  Everything up to the first comma
is the city portion (non-empty required); after the comma: optional
whitespace, exactly two uppercase letters, mandatory whitespace, five
digits, and optionally a dash plus four more digits. -/
def split_city_state_zip (full : Option String) :
    Option String × Option String × Option String :=
  match full with
  | none => (none, none, none)
  | some s =>
    if s = "" then (none, none, none)
    else
      match splitFirstComma s.data with
      | none => (none, none, none)
      | some (before, after) =>
        if before = [] then (none, none, none)
        else
          let city := String.mk (pyStripL before)
          let r1 := after.dropWhile isSpacePy
          match r1 with
          | a :: b :: r2 =>
            if isUpperAZ a && isUpperAZ b then
              match r2 with
              | sp :: _ =>
                if isSpacePy sp then
                  let r3 := r2.dropWhile isSpacePy
                  match r3 with
                  | d1 :: d2 :: d3 :: d4 :: d5 :: r4 =>
                    if isDigitPy d1 && isDigitPy d2 && isDigitPy d3 &&
                       isDigitPy d4 && isDigitPy d5 then
                      let zip5 := [d1, d2, d3, d4, d5]
                      let zip :=
                        match r4 with
                        | '-' :: e1 :: e2 :: e3 :: e4 :: _ =>
                          if isDigitPy e1 && isDigitPy e2 && isDigitPy e3 &&
                             isDigitPy e4 then
                            zip5 ++ '-' :: [e1, e2, e3, e4]
                          else zip5
                        | _ => zip5
                      (some city, some (String.mk [a, b]), some (String.mk zip))
                    else (none, none, none)
                  | _ => (none, none, none)
                else (none, none, none)
              | [] => (none, none, none)
            else (none, none, none)
          | _ => (none, none, none)

/-! ### Query classifier / normalizer and owner classification -/

/-- `is_probable_apn`: after removing whitespace and dashes, 8–12 decimal
digits remain. -/
def is_probable_apn (text : String) : Bool :=
  let s := text.data.filter (fun c => !(isSpacePy c || c = '-'))
  s.all isDigitPy && 8 ≤ s.length && s.length ≤ 12

/-- The digit characters of a string (`re.sub(r"\D", "", text)`). -/
def digitsOf (text : String) : String :=
  String.mk (text.data.filter isDigitPy)

/-- `normalize_apn`: dashed 3-2-4 form when exactly 9 digits remain,
otherwise the stripped input. -/
def normalize_apn (text : String) : String :=
  let digits := (digitsOf text).data
  if digits.length = 9 then
    String.mk (digits.take 3) ++ "-" ++ String.mk ((digits.drop 3).take 2) ++
      "-" ++ String.mk (digits.drop 5)
  else pyStrip text

/-- `classify_owner_type`: priority-ordered substring checks on the
upper-cased owner name; note the leading spaces in the corporation and
partnership token lists of the source. -/
def classify_owner_type (name : Option String) : Option String :=
  match name with
  | none => none
  | some nm =>
    if nm = "" then none
    else
      let n := pyUpper nm
      if pySub "TRUST" n || pyEndsWith " TR" n then some "trust"
      else if pySub "LLC" n then some "llc"
      else if [" INC", " CORP", " CORPORATION", " CO.", " COMPANY"].any
          (fun k => pySub k n) then some "corporation"
      else if [" LP", " L.P.", " LTD", " LIMITED", " PARTNERSHIP"].any
          (fun k => pySub k n) then some "partnership"
      else some "individual"

/-! ### The output record shape -/

/-- A normalized `{street, city, state, zip}` address mapping. -/
structure AddrRec where
  street : Option String
  city : Option String
  state : Option String
  zip : Option String
  deriving Repr, DecidableEq

/-- The all-null address. -/
def nullAddr : AddrRec := ⟨none, none, none, none⟩

/-- The `last_transfer` sub-record. -/
structure TransferRec where
  recording_date : Option String
  doc_number : Option String
  price : Option Int
  deriving Repr, DecidableEq

/-- The `assessed_values` sub-record. -/
structure AssessedRec where
  land : Option Int
  improvements : Option Int
  total : Option Int
  year : Option Int
  deriving Repr, DecidableEq

/-- The `property_details` sub-record. -/
structure DetailsRec where
  use_code : Option String
  year_built : Option Int
  living_sqft : Option Int
  lot_sqft : Option Int
  deriving Repr, DecidableEq

/-- The fully-keyed record produced by `parse_property_page` and written
by `main`; optional leaves model JSON `null`. -/
structure ParsedRecord where
  apn : Option String
  situs_address : AddrRec
  owner_names : List String
  owner_mailing_address : AddrRec
  owner_type : Option String
  last_transfer : TransferRec
  assessed_values : AssessedRec
  homeowner_exemption : Option Bool
  property_details : DetailsRec
  recorder_doc_url : Option String
  deriving Repr, DecidableEq

/-- The fully-keyed all-null record. -/
def nullRecord : ParsedRecord :=
  { apn := none
    situs_address := nullAddr
    owner_names := []
    owner_mailing_address := nullAddr
    owner_type := none
    last_transfer := ⟨none, none, none⟩
    assessed_values := ⟨none, none, none, none⟩
    homeowner_exemption := none
    property_details := ⟨none, none, none, none⟩
    recorder_doc_url := none }

/-- `RECORDER_SEARCH_LANDING`. -/
def RECORDER_SEARCH_LANDING : String :=
  "https://clerkrecorder.santaclaracounty.gov/official-records/records-search"

/-! ### `parse_property_page` -/

/-- The mailing-address block split of `parse_property_page`
(lines 449–457 of the source): the last line is parsed for
city/state/zip, the second-to-last (when present) is the street. -/
def mailingSplit (block : Option String) :
    Option String × Option String × Option String × Option String :=
  match block with
  | none => (none, none, none, none)
  | some blk =>
    if blk = "" then (none, none, none, none)
    else
      let lines := strippedLines blk
      match lines with
      | [] => (none, none, none, none)
      | l1 :: lrest =>
        let lastLine := (l1 :: lrest).getLast (by simp)
        let (c, st, z) := split_city_state_zip (some lastLine)
        let street := ((l1 :: lrest).dropLast).getLast?
        (street, c, st, z)

/-- The situs-address block split of `parse_property_page`
(lines 459–475): a single line with a comma is split at the first comma
into street and city/state/zip (state defaulting to `"CA"`); two or more
lines use the first as street and parse the second; otherwise only the
street is set. -/
def situsSplit (full : Option String) :
    Option String × Option String × Option String × Option String :=
  match full with
  | none => (none, none, none, none)
  | some sf =>
    if sf = "" then (none, none, none, none)
    else
      let parts := strippedLines sf
      match parts with
      | [] => (none, none, none, none)
      | [p0] =>
        if pySub "," p0 then
          match splitFirstComma p0.data with
          | some (st0, rest0) =>
            let street := pyStrip (String.mk st0)
            let (c, st, z) :=
              split_city_state_zip (some (pyStrip (String.mk rest0)))
            (some street, c, pyOrOS st (some "CA"), z)
          | none => (some p0, none, none, none)
        else (some p0, none, none, none)
      | p0 :: p1 :: _ =>
        let (c, st, z) := split_city_state_zip (some p1)
        (some p0, c, pyOrOS st (some "CA"), z)

/-- `parse_property_page(html)`: harvest the label→value mapping from the
table rows, resolve each target field through its alias patterns, apply
the field normalizers, and assemble the fully-keyed record.  The
`ValueError` that `normalize_money` can raise propagates as the nested
matches below: the first failing normalization wins, in the source's
evaluation order (living, lot, price, land, improvements, total). -/
def parse_property_page (roots : List Node) : Except PyErr ParsedRecord :=
  let kv := harvest roots
  let mailing_block := find_first aliases_mailing kv roots
  let mAddr := mailingSplit mailing_block
  let situs_full := find_first aliases_situs kv roots
  let sAddr := situsSplit situs_full
  let owner_name := find_first aliases_owner kv roots
  let hx_text := find_first aliases_hx kv roots
  let homeowner_exemption : Option Bool :=
    match hx_text with
    | none => none
    | some t => if t = "" then none else some (reSearch pat_affirmative t)
  let use_code := find_first aliases_use_code kv roots
  let year_built := safe_int (find_first aliases_year_built kv roots)
  match normalize_money (find_first aliases_living kv roots) with
  | .error e => .error e
  | .ok living_sqft =>
  match normalize_money (find_first aliases_lot kv roots) with
  | .error e => .error e
  | .ok lot_sqft =>
  let doc_no := find_first aliases_doc kv roots
  let rec_date := find_first aliases_rec_date kv roots
  match normalize_money (find_first aliases_price kv roots) with
  | .error e => .error e
  | .ok price =>
  match normalize_money (find_first aliases_land kv roots) with
  | .error e => .error e
  | .ok land =>
  match normalize_money (find_first aliases_impr kv roots) with
  | .error e => .error e
  | .ok impr =>
  match normalize_money (find_first aliases_total kv roots) with
  | .error e => .error e
  | .ok total =>
  let year : Option Int :=
    match find_first aliases_year kv roots with
    | none => none
    | some y => find4Digits y.data
  .ok
    { apn := find_first aliases_apn kv roots
      situs_address :=
        ⟨sAddr.1, sAddr.2.1, sAddr.2.2.1, sAddr.2.2.2⟩
      owner_names :=
        match owner_name with
        | some n => if n ≠ "" then [n] else []
        | none => []
      owner_mailing_address :=
        ⟨mAddr.1, mAddr.2.1, mAddr.2.2.1, mAddr.2.2.2⟩
      owner_type := classify_owner_type owner_name
      last_transfer := ⟨rec_date, doc_no, price⟩
      assessed_values := ⟨land, impr, total, year⟩
      homeowner_exemption := homeowner_exemption
      property_details := ⟨use_code, year_built, living_sqft, lot_sqft⟩
      recorder_doc_url :=
        if pyTruthyOS doc_no then some RECORDER_SEARCH_LANDING else none }

/-! ### The embedded sample document `DEMO_HTML`

The markup string of the source, as the node tree the out-of-scope HTML
parser produces from it: two tables of two-cell rows, with `<br>` line
breaks inside the situs and mailing value cells and whitespace-only text
nodes between the elements of the markup. -/

/-- A whitespace-only text node (the newlines of the markup string). -/
def nlNode : Node := .text "\n"

/-- A two-cell `<tr><th>k</th><td>v</td></tr>` row. -/
def row2 (k v : String) : Node :=
  .elem "tr" [.elem "th" [.text k], .elem "td" [.text v]]

/-- The `Homeowner's Exemption` label text of the sample document. -/
def hxLabel : String := "Homeowner" ++ apoS ++ "s Exemption"

/-- The node tree of `DEMO_HTML`. -/
def DEMO_TREE : List Node :=
  [.elem "html" [.elem "body" [
    nlNode,
    .elem "table" [
      nlNode,
      row2 "APN" "235-12-003",
      nlNode,
      .elem "tr" [.elem "th" [.text "Situs Address"],
        .elem "td" [.text "123 Sample St", .elem "br" [],
                    .text "San Jose, CA 95123"]],
      nlNode,
      .elem "tr" [.elem "th" [.text "Mailing Address"],
        .elem "td" [.text "JANE DOE TRUST", .elem "br" [],
                    .text "PO BOX 1234", .elem "br" [],
                    .text "San Jose, CA 95123"]],
      nlNode,
      row2 hxLabel "Yes",
      nlNode,
      row2 "Use Code" "SFR",
      nlNode,
      row2 "Year Built" "1978",
      nlNode,
      row2 "Living Area" "1,234",
      nlNode,
      row2 "Lot Area" "6,098",
      nlNode,
      row2 "Document Number" "12345678",
      nlNode,
      row2 "Recording Date" "06/15/2021",
      nlNode,
      row2 "Sales Price" "$1,250,000",
      nlNode
    ],
    nlNode,
    .elem "table" [
      nlNode,
      row2 "Roll Year" "2024",
      nlNode,
      row2 "Land Value" "$900,000",
      nlNode,
      row2 "Improvements Value" "$450,000",
      nlNode,
      row2 "Total Assessed Value" "$1,350,000",
      nlNode
    ],
    nlNode
  ]]]

/-! ### Geospatial service data model

JSON attribute mappings are association lists; a missing key and a JSON
`null` value are distinguished where the source distinguishes them
(`d[k]` raises `KeyError` on a missing key, `d.get(k)` returns `None` for
both). -/

/-- An attribute mapping (string or null values). -/
def Attrs := List (String × Option String)

/-- `attrs.get(k)`: `None` for a missing key or a null value. -/
def attrGetS (attrs : Attrs) (k : String) : Option String :=
  match attrs.find? (fun e => e.1 = k) with
  | some e => e.2
  | none => none

/-- A geospatial feature: an optional `attributes` mapping (absent key
representable, for the `feature["attributes"]` `KeyError`) and optional
geometry payload. -/
structure Feature where
  attributes : Option (List (String × Option String))
  geometry : Option Unit
  deriving Repr, DecidableEq

/-- Python truthiness of a feature dict: non-empty. -/
def featTruthy (f : Feature) : Bool :=
  f.attributes.isSome || f.geometry.isSome

/-- Truthiness of an optional feature (`if feature:` in the source, where
`feature` is `None` or a dict). -/
def optFeatTruthy : Option Feature → Bool
  | none => false
  | some f => featTruthy f

/-- A geocoder location (coordinates carried opaquely as integers; the
claims never compute with them). -/
structure Loc where
  x : Option Int
  y : Option Int
  deriving Repr, DecidableEq

/-- A raw geocode candidate as it appears in the service response; outer
`Option`s model missing keys (`spatialReference`'s inner `Option` models
a `wkid`-less dict). -/
structure Cand where
  score : Option Int
  location : Option Loc
  attributes : Option (List (String × Option String))
  spatialReference : Option (Option Int)
  deriving Repr, DecidableEq

/-- `c.get("score", 0)`. -/
def effScore (c : Cand) : Int := c.score.getD 0

/-- The top candidate after `arcgis_geocode_address`'s `setdefault`
patches: `location` and `attributes` are guaranteed present and a missing
`spatialReference` becomes `{"wkid": 4326}`. -/
structure PCand where
  location : Loc
  attributes : List (String × Option String)
  spatialReference : Option Int
  deriving Repr, DecidableEq

/-- The `setdefault` patches applied to the selected top candidate. -/
def patchCand (c : Cand) : PCand :=
  { location := c.location.getD ⟨none, none⟩
    attributes := c.attributes.getD []
    spatialReference :=
      match c.spatialReference with
      | none => some 4326
      | some srd => srd }

/-! ### Stable descending sort of geocode candidates

Python's `list.sort(key=..., reverse=True)` is a stable descending sort.
It is embedded as the standard decorate–sort–undecorate construction:
tag each candidate with its original index, sort by the total order
"higher score first, equal scores in index order", drop the tags. -/

/-- The total order used to embed the stable descending sort. -/
def tagLE (a b : Nat × Cand) : Prop :=
  effScore b.2 < effScore a.2 ∨ (effScore a.2 = effScore b.2 ∧ a.1 ≤ b.1)

instance : DecidableRel tagLE := fun a b => by unfold tagLE; infer_instance

instance : IsTotal (Nat × Cand) tagLE := ⟨by intro a b; unfold tagLE; omega⟩

instance : IsTrans (Nat × Cand) tagLE := ⟨by intro a b c; unfold tagLE; omega⟩

/-- Index-tagged stable descending sort. -/
def candSortTagged (l : List Cand) : List (Nat × Cand) :=
  l.enum.insertionSort tagLE

/-- `cands.sort(key=lambda c: c.get("score", 0), reverse=True)`. -/
def candSort (l : List Cand) : List Cand :=
  (candSortTagged l).map Prod.snd

/-- `[c for c in cands if c.get("score", 0) >= 70]`. -/
def viableCands (l : List Cand) : List Cand :=
  l.filter (fun c => 70 ≤ effScore c)

/-! ### The remote-call environment and the ArcGIS helpers -/

/-- Fetched record-page markup: the verbatim text (for Python truthiness)
paired with the node tree the out-of-scope HTML parser produces from it. -/
structure Markup where
  raw : String
  dom : List Node

/-- The out-of-scope transport layer: each endpoint maps request
parameters to a transport failure (`.error ()`, any
`requests.RequestException`) or a decoded response body.  For the feature
and geocode endpoints the body is its `features` / `candidates` array
(`js.get(...) or []` makes a missing array equal to an empty one); the
assessor endpoint is keyed by the APN interpolated into its URL. -/
structure Env where
  parcelByApn : String → Except Unit (List Feature)
  parcelByApnLike : String → Except Unit (List Feature)
  geocode : String → Except Unit (List Cand)
  parcelByPoint : Int → Int → Int → Except Unit (List Feature)
  fetchAssessor : String → Except Unit Markup

/-- `feats[0] if feats else None`, with a caught transport error giving
`None` as well. -/
def featuresHead : Except Unit (List Feature) → Option Feature
  | .error _ => none
  | .ok fs => fs.head?

/-- `arcgis_query_parcel_by_apn`: first feature of the exact-match query,
`None` on transport failure or an empty result. -/
def arcgis_query_parcel_by_apn (apn : String) (env : Env) : Option Feature :=
  featuresHead (env.parcelByApn apn)

/-- `arcgis_query_parcel_by_apn_like`: first feature of the substring
(`LIKE`) query. -/
def arcgis_query_parcel_by_apn_like (bare : String) (env : Env) : Option Feature :=
  featuresHead (env.parcelByApnLike bare)

/-- `arcgis_query_parcel_by_point`: first feature of the spatial
intersect query. -/
def arcgis_query_parcel_by_point (x y wkid : Int) (env : Env) : Option Feature :=
  featuresHead (env.parcelByPoint x y wkid)

/-- `arcgis_geocode_address`: keep candidates scoring at least 70, sort
stably by descending score, return the patched top candidate. -/
def arcgis_geocode_address (address : String) (env : Env) : Option PCand :=
  match env.geocode address with
  | .error _ => none
  | .ok cands =>
    match (candSort (viableCands cands)).head? with
    | none => none
    | some top => some (patchCand top)

/-! ### `extract_situs_from_feature` -/

/-- The GIS situs skeleton (the dict built by
`extract_situs_from_feature`, which also carries the feature's APN). -/
structure GisSitus where
  apn : Option String
  street : Option String
  city : Option String
  state : Option String
  zip : Option String
  deriving Repr, DecidableEq

/-- `tval`: the stripped string value of an attribute, `None` for a
missing key or a null value. -/
def tval (a : List (String × Option String)) (k : String) : Option String :=
  match attrGetS a k with
  | some v => some (pyStrip v)
  | none => none

/-- `extract_situs_from_feature`. -/
def extract_situs_from_feature (f : Option Feature) : Option GisSitus :=
  match f with
  | none => none
  | some ft =>
    if !featTruthy ft then none
    else
      let a := ft.attributes.getD []
      let street_parts : List String :=
        [ (tval a "SITUS_HOUSE_NUMBER").getD "",
          (tval a "SITUS_HOUSE_NUMBER_SUFFIX").getD "",
          (tval a "SITUS_STREET_DIRECTION").getD "",
          (tval a "SITUS_STREET_NAME").getD "",
          (tval a "SITUS_STREET_TYPE").getD "",
          (match tval a "SITUS_UNIT_NUMBER" with
           | some u => if u ≠ "" then "Unit " ++ u else ""
           | none => "") ]
      let street :=
        pyStrip (pyReplace "  " " "
          (" ".intercalate (street_parts.filter (· ≠ ""))))
      some
        { apn := tval a "APN"
          street := if street ≠ "" then some street else none
          city := tval a "SITUS_CITY_NAME"
          state := pyOrOS (tval a "SITUS_STATE_CODE") (some "CA")
          zip :=
            let z := tval a "SITUS_ZIP_CODE"
            if pyTruthyOS z then z else none }

/-! ### `search_property` (with its trace of remote calls) -/

/-- One remote call issued by the pipeline, in order. -/
inductive Call where
  | byApn (apn : String)
  | byLike (digits : String)
  | geocodeCall (q : String)
  | byPoint (x y wkid : Int)
  | pageFetch (apn : String)
  deriving Repr, DecidableEq

/-- Is this call one of the three feature queries? -/
def isFeatureQuery : Call → Bool
  | .byApn _ => true
  | .byLike _ => true
  | .byPoint _ _ _ => true
  | _ => false

/-- Number of feature-query calls in a trace. -/
def featureQueryCount (tr : List Call) : Nat :=
  (tr.filter isFeatureQuery).length

/-- The intermediate carrier returned by `search_property`. -/
structure RawSearchResult where
  apn : Option String
  situs : Option GisSitus
  parcel_feature : Option Feature
  assessor_html : Option Markup

/-- Truthiness of the fetched markup (`if raw.assessor_html:` on the
verbatim text). -/
def htmlTruthy (m : Option Markup) : Bool :=
  match m with
  | none => false
  | some mk => mk.raw ≠ ""

/-- The assessor record-page fetch (lines 342–352): attempted exactly
when a truthy identifier was resolved; a transport failure is caught and
yields null markup. -/
def fetchStep (env : Env) (resolved_apn : Option String) (tr : List Call) :
    Option Markup × List Call :=
  if pyTruthyOS resolved_apn then
    let apn := resolved_apn.getD ""
    (match env.fetchAssessor apn with
     | .ok m => some m
     | .error _ => none,
     tr ++ [Call.pageFetch apn])
  else (none, tr)

/-- The common tail of `search_property`: derive the situs skeleton from
the feature, fetch the record page, assemble the `RawSearchResult`. -/
def searchFinish (env : Env) (feature : Option Feature)
    (resolved_apn : Option String) (tr : List Call) :
    Except PyErr RawSearchResult × List Call :=
  let situs :=
    if optFeatTruthy feature then extract_situs_from_feature feature else none
  let (html, tr2) := fetchStep env resolved_apn tr
  (.ok ⟨resolved_apn, situs, feature, html⟩, tr2)

/-- The spatial-intersect fallback of the address path (lines 329–337):
when no feature was found yet and the candidate has both coordinates,
query by point; on a truthy feature the identifier is read with
`feature["attributes"]["APN"]`, whose two lookups raise `KeyError` on a
missing key. -/
def addrSpatial (env : Env) (geo : PCand) (feature : Option Feature)
    (resolved_apn : Option String) (tr : List Call) :
    Except PyErr RawSearchResult × List Call :=
  if !optFeatTruthy feature then
    match geo.location.x, geo.location.y with
    | some x, some y =>
      let wkid :=
        match geo.spatialReference with
        | some w => w
        | none => 4326
      let f := arcgis_query_parcel_by_point x y wkid env
      let tr2 := tr ++ [Call.byPoint x y wkid]
      if optFeatTruthy f then
        match f with
        | some ft =>
          match ft.attributes with
          | none => (.error (.keyError "attributes"), tr2)
          | some attrs =>
            match attrs.find? (fun e => e.1 = "APN") with
            | none => (.error (.keyError "APN"), tr2)
            | some e => searchFinish env f e.2 tr2
        | none => searchFinish env f none tr2
      else searchFinish env f none tr2
    | _, _ => searchFinish env feature resolved_apn tr
  else searchFinish env feature resolved_apn tr

/-- `search_property(query)`: classify the stripped query; on the parcel
path the normalized query itself is the resolved identifier and the
exact-match query falls back to the substring query; on the address path
geocode, then try the geocoder-provided APN (exact then substring), then
the spatial intersect; finally fetch the record page when an identifier
exists.  The second component is the ordered trace of remote calls. -/
def search_property (query : String) (env : Env) :
    Except PyErr RawSearchResult × List Call :=
  let q := pyStrip query
  if is_probable_apn q then
    let apn_dashed := normalize_apn q
    let f1 := arcgis_query_parcel_by_apn apn_dashed env
    let tr0 := [Call.byApn apn_dashed]
    let (feature, tr1) :=
      if !optFeatTruthy f1 then
        let bare := digitsOf q
        (arcgis_query_parcel_by_apn_like bare env, tr0 ++ [Call.byLike bare])
      else (f1, tr0)
    let situs :=
      if optFeatTruthy feature then extract_situs_from_feature feature else none
    let (html, tr2) := fetchStep env (some apn_dashed) tr1
    (.ok ⟨some apn_dashed, situs, feature, html⟩, tr2)
  else
    let tr0 := [Call.geocodeCall q]
    match arcgis_geocode_address q env with
    | none => (.ok ⟨none, none, none, none⟩, tr0)
    | some geo =>
      let apn_from_geo :=
        pyOrOS (attrGetS geo.attributes "APN") (attrGetS geo.attributes "apn")
      if pyTruthyOS apn_from_geo then
        let apn_norm := normalize_apn (apn_from_geo.getD "")
        let f1 := arcgis_query_parcel_by_apn apn_norm env
        let trA := tr0 ++ [Call.byApn apn_norm]
        let (f2, trB) :=
          if !optFeatTruthy f1 then
            let bare := digitsOf apn_norm
            (arcgis_query_parcel_by_apn_like bare env,
             trA ++ [Call.byLike bare])
          else (f1, trA)
        if optFeatTruthy f2 then
          match f2 with
          | some ft =>
            match ft.attributes with
            | none => (.error (.keyError "attributes"), trB)
            | some attrs => addrSpatial env geo f2 (attrGetS attrs "APN") trB
          | none => addrSpatial env geo f2 none trB
        else addrSpatial env geo f2 none trB
      else addrSpatial env geo none none tr0

/-! ### `main` (query path; `--demo` and CLI parsing are out of scope) -/

/-- The GIS-derived seed of the final record (lines 615–626); the typed
`situs_address` keeps the four address keys of the GIS situs dict (its
extra `apn` key is exactly what the final normalization step drops). -/
def seedRecord (raw : RawSearchResult) : ParsedRecord :=
  { apn := raw.apn
    situs_address :=
      match raw.situs with
      | some g => ⟨g.street, g.city, g.state, g.zip⟩
      | none => nullAddr
    owner_names := []
    owner_mailing_address := nullAddr
    owner_type := none
    last_transfer := ⟨none, none, none⟩
    assessed_values := ⟨none, none, none, none⟩
    homeowner_exemption := none
    property_details := ⟨none, none, none, none⟩
    recorder_doc_url := none }

/-- The situs merge step (lines 638–640): the page-extracted address
replaces the GIS one exactly when its street and city are both truthy
(non-null and non-empty). -/
def mergeSitus (seedSitus pSitus : AddrRec) : AddrRec :=
  if pyTruthyOS pSitus.street && pyTruthyOS pSitus.city then pSitus
  else seedSitus

/-- The assessor-over-GIS merge (lines 637–648). -/
def mergeParsed (seed parsed : ParsedRecord) : ParsedRecord :=
  { apn := pyOrOS seed.apn parsed.apn
    situs_address := mergeSitus seed.situs_address parsed.situs_address
    owner_names := parsed.owner_names
    owner_mailing_address := parsed.owner_mailing_address
    owner_type := parsed.owner_type
    last_transfer := parsed.last_transfer
    assessed_values := parsed.assessed_values
    homeowner_exemption := parsed.homeowner_exemption
    property_details := parsed.property_details
    recorder_doc_url := parsed.recorder_doc_url }

/-- The final shape normalization (lines 651–686): re-assert every nested
key.  On the typed record this is the explicit field-by-field rebuild. -/
def normalize_result (r : ParsedRecord) : ParsedRecord :=
  { apn := r.apn
    situs_address :=
      ⟨r.situs_address.street, r.situs_address.city,
       r.situs_address.state, r.situs_address.zip⟩
    owner_names := r.owner_names
    owner_mailing_address :=
      ⟨r.owner_mailing_address.street, r.owner_mailing_address.city,
       r.owner_mailing_address.state, r.owner_mailing_address.zip⟩
    owner_type := r.owner_type
    last_transfer :=
      ⟨r.last_transfer.recording_date, r.last_transfer.doc_number,
       r.last_transfer.price⟩
    assessed_values :=
      ⟨r.assessed_values.land, r.assessed_values.improvements,
       r.assessed_values.total, r.assessed_values.year⟩
    homeowner_exemption := r.homeowner_exemption
    property_details :=
      ⟨r.property_details.use_code, r.property_details.year_built,
       r.property_details.living_sqft, r.property_details.lot_sqft⟩
    recorder_doc_url := r.recorder_doc_url }

/-- `main` on a query (the non-demo path): run the pipeline, write either
the seed record with exit code 2 (no identifier and no markup), or the
merged and normalized record with exit code 0.  The returned record is
the one handed to the serialization collaborator. -/
def main_run (query : String) (env : Env) :
    Except PyErr (ParsedRecord × Nat) × List Call :=
  let (rawE, tr) := search_property query env
  match rawE with
  | .error e => (.error e, tr)
  | .ok raw =>
    let result := seedRecord raw
    if !pyTruthyOS raw.apn && !htmlTruthy raw.assessor_html then
      (.ok (result, 2), tr)
    else
      if htmlTruthy raw.assessor_html then
        match raw.assessor_html with
        | some mk =>
          match parse_property_page mk.dom with
          | .error e => (.error e, tr)
          | .ok parsed =>
            (.ok (normalize_result (mergeParsed result parsed), 0), tr)
        | none => (.ok (normalize_result result, 0), tr)
      else (.ok (normalize_result result, 0), tr)

/-! ### Helper lemmas -/

/-- Is an `Except` result a success? -/
def exOk {α : Type} : Except PyErr α → Bool
  | .ok _ => true
  | .error _ => false

/-- The document-wide fallback never produces an empty string. -/
theorem docFallback_ne_empty (r : Re) (roots : List Node) (t : String)
    (h : docFallback r roots = some t) : t ≠ "" := by
  unfold docFallback at h
  cases hf : findLabelSib (reSearch r) roots with
  | notFound => rw [hf] at h; simp at h
  | foundDirect => rw [hf] at h; simp at h
  | found sib =>
    rw [hf] at h
    cases sib with
    | none => simp at h
    | some n =>
      by_cases ht : getTextStrip n = ""
      · simp [ht] at h
      · simp only [ht, ne_eq, not_false_eq_true, if_true] at h
        cases h
        exact ht

/-- `find_first` never produces an empty string. -/
theorem find_first_ne_empty (pats : List Re) (kv : List (String × String))
    (roots : List Node) (t : String)
    (h : find_first pats kv roots = some t) : t ≠ "" := by
  induction pats with
  | nil => simp [find_first] at h
  | cons p ps ih =>
    unfold find_first at h
    cases hk : kv.find? (fun e => reSearch p e.1 && e.2 ≠ "") with
    | some e =>
      rw [hk] at h
      have hp := List.find?_some hk
      simp only [Bool.and_eq_true, ne_eq, decide_eq_true_eq] at hp
      cases h
      exact hp.2
    | none =>
      rw [hk] at h
      cases hd : docFallback p roots with
      | some txt =>
        rw [hd] at h
        cases h
        exact docFallback_ne_empty p roots t hd
      | none => rw [hd] at h; exact ih h

/-- A witness with `p c = false` survives `dropWhile p`. -/
theorem exists_not_dropWhile (p : Char → Bool) :
    ∀ l : List Char, (∃ c ∈ l, p c = false) →
      ∃ c ∈ l.dropWhile p, p c = false := by
  intro l
  induction l with
  | nil => simp
  | cons a t ih =>
    rintro ⟨c, hc, hpc⟩
    by_cases hpa : p a = true
    · rw [List.dropWhile_cons_of_pos hpa]
      apply ih
      rcases List.mem_cons.mp hc with rfl | hct
      · rw [hpa] at hpc; cases hpc
      · exact ⟨c, hct, hpc⟩
    · rw [List.dropWhile_cons_of_neg hpa]
      exact ⟨c, hc, hpc⟩

/-- A string containing a non-whitespace character strips to something
non-empty. -/
theorem pyStripL_ne_nil (l : List Char)
    (h : ∃ c ∈ l, isSpacePy c = false) : pyStripL l ≠ [] := by
  unfold pyStripL dropEndWhile
  have h1 := exists_not_dropWhile isSpacePy l h
  have h2 : ∃ c ∈ (l.dropWhile isSpacePy).reverse, isSpacePy c = false := by
    obtain ⟨c, hc, hp⟩ := h1
    exact ⟨c, List.mem_reverse.mpr hc, hp⟩
  obtain ⟨c, hc, _⟩ := exists_not_dropWhile isSpacePy _ h2
  intro he
  have hnil := List.reverse_eq_nil_iff.mp he
  rw [hnil] at hc
  exact absurd hc (List.not_mem_nil c)

/-- A probable APN contains a digit character (not whitespace). -/
theorem is_probable_apn_digit (q : String) (h : is_probable_apn q = true) :
    ∃ c ∈ q.data, isDigitPy c = true ∧ isSpacePy c = false := by
  unfold is_probable_apn at h
  simp only [Bool.and_eq_true, decide_eq_true_eq] at h
  obtain ⟨⟨hall, h8⟩, _⟩ := h
  have hs : q.data.filter (fun c => !(isSpacePy c || c = '-')) ≠ [] := by
    intro he
    rw [he] at h8
    simp at h8
  obtain ⟨c, hc⟩ := List.exists_mem_of_ne_nil _ hs
  have hmem := List.mem_filter.mp hc
  have hkeep := hmem.2
  simp only [Bool.not_eq_true', Bool.or_eq_false_iff] at hkeep
  refine ⟨c, hmem.1, ?_, hkeep.1⟩
  exact List.all_eq_true.mp hall c hc

/-- A probable APN normalizes to a non-empty identifier. -/
theorem normalize_apn_ne_empty (q : String) (h : is_probable_apn q = true) :
    normalize_apn q ≠ "" := by
  obtain ⟨c, hc, hd, hns⟩ := is_probable_apn_digit q h
  unfold normalize_apn
  by_cases h9 : (digitsOf q).data.length = 9
  · simp only [h9, if_true]
    intro he
    have hdata := congrArg String.data he
    simp [String.data_append] at hdata
  · simp only [h9, if_false]
    intro he
    have hdata := congrArg String.data he
    have hne := pyStripL_ne_nil q.data ⟨c, hc, hns⟩
    unfold pyStrip at hdata
    simp at hdata
    exact hne hdata

/-! ### C8 — owner classification -/

/-- The owner classification as the amended claim states it: priority
order trust (contains "TRUST" or ends with " TR") → llc (contains "LLC")
→ corporation (contains one of " INC", " CORP", " CORPORATION", " CO.",
" COMPANY", each token preceded by a space) → partnership (contains one
of " LP", " L.P.", " LTD", " LIMITED", " PARTNERSHIP", likewise
space-prefixed) → individual when a name exists → null when it does not;
all checks case-insensitive (through upper-casing). -/
def specOwnerType (name : Option String) : Option String :=
  match name with
  | none => none
  | some nm =>
    if nm = "" then none
    else
      let n := pyUpper nm
      if pySub "TRUST" n || pyEndsWith " TR" n then some "trust"
      else if pySub "LLC" n then some "llc"
      else if pySub " INC" n || pySub " CORP" n || pySub " CORPORATION" n ||
          pySub " CO." n || pySub " COMPANY" n then some "corporation"
      else if pySub " LP" n || pySub " L.P." n || pySub " LTD" n ||
          pySub " LIMITED" n || pySub " PARTNERSHIP" n then some "partnership"
      else some "individual"

/-- C8 (counterexample): the claim's corporation tokens are not
space-prefixed, but the source checks `" INC"` (with a leading space):
the name "ACMEINC" contains "INC", so the claim requires "corporation",
yet `classify_owner_type` returns "individual". -/
theorem c8_owner_type_counterexample :
    pySub "INC" (pyUpper "ACMEINC") = true ∧
    classify_owner_type (some "ACMEINC") = some "individual" := by
  exact ⟨rfl, rfl⟩

/-- C8 (amended): owner classification is a total function of the owner
name applying case-insensitive checks in priority order, with the
corporation and partnership tokens each requiring a preceding space
(" INC", " CORP", " CORPORATION", " CO.", " COMPANY"; " LP", " L.P.",
" LTD", " LIMITED", " PARTNERSHIP"); trust/llc tokens and the " TR"
suffix are as the claim stated. -/
theorem c8_owner_type_amended (name : Option String) :
    classify_owner_type name = specOwnerType name := by
  cases name with
  | none => rfl
  | some nm =>
    by_cases h : nm = ""
    · simp [classify_owner_type, specOwnerType, h]
    · simp only [classify_owner_type, specOwnerType, h, if_false,
        List.any_cons, List.any_nil, Bool.or_false, Bool.or_assoc]

/-! ### C10 — situs merge precedence -/

/-- C10 (counterexample): the source's condition is Python truthiness,
not non-nullness.  A page situs with a present-but-empty street (which
`parse_property_page` produces for a one-line situs value beginning with
a comma, as the first conjunct shows) and a non-null city is NOT taken:
the GIS situs is kept, although the claim's "both non-null" condition
holds. -/
theorem c10_situs_merge_counterexample :
    situsSplit (some (",San Jose, CA 95123")) =
      (some "", some "San Jose", some "CA", some "95123") ∧
    (AddrRec.mk (some "") (some "San Jose") (some "CA") (some "95123")).street
      ≠ none ∧
    (AddrRec.mk (some "") (some "San Jose") (some "CA") (some "95123")).city
      ≠ none ∧
    mergeSitus ⟨some "70 W Hedding St", some "San Jose", some "CA", some "95110"⟩
        ⟨some "", some "San Jose", some "CA", some "95123"⟩ =
      ⟨some "70 W Hedding St", some "San Jose", some "CA", some "95110"⟩ := by
  refine ⟨rfl, by simp, by simp, rfl⟩

/-- C10 (amended): the page-extracted situs replaces the GIS situs if
and only if its street and city are both truthy (non-null AND non-empty
strings); otherwise the GIS situs is kept verbatim, and when the page
situs qualifies it replaces the GIS one wholesale. -/
theorem c10_situs_merge_amended (geoS pS : AddrRec) :
    (pyTruthyOS pS.street = true → pyTruthyOS pS.city = true →
      mergeSitus geoS pS = pS) ∧
    (¬(pyTruthyOS pS.street = true ∧ pyTruthyOS pS.city = true) →
      mergeSitus geoS pS = geoS) := by
  constructor
  · intro h1 h2
    simp [mergeSitus, h1, h2]
  · intro h
    rw [mergeSitus, if_neg]
    intro hand
    exact h (Bool.and_eq_true _ _ |>.mp hand)

/-- C10 (witness): the amended theorem applied at a page situs with
truthy street and city, and at one with an empty street. -/
theorem c10_situs_merge_amended_witness :
    mergeSitus nullAddr ⟨some "1 Main St", some "San Jose", none, none⟩ =
      ⟨some "1 Main St", some "San Jose", none, none⟩ ∧
    mergeSitus ⟨some "x", none, none, none⟩ ⟨some "", some "San Jose", none, none⟩ =
      ⟨some "x", none, none, none⟩ := by
  constructor
  · exact (c10_situs_merge_amended nullAddr _).1 rfl rfl
  · exact (c10_situs_merge_amended _ _).2 (by simp [pyTruthyOS])

/-! ### C7 — label-resolution pattern order -/

/-- A pattern matching only the label "Alpha". -/
def c7p1 : Re := ciStr "Alpha"

/-- A pattern matching only the label "Beta". -/
def c7p2 : Re := ciStr "Beta"

/-- A harvested mapping in which only the second pattern has a hit. -/
def c7kv : List (String × String) := [("Beta label", "v2")]

/-- A document in which the first pattern has a sibling-text fallback
hit: a text node "Alpha" whose parent's next sibling reads "fallback". -/
def c7doc : List Node :=
  [.elem "div" [.text "Alpha"], .elem "p" [.text "fallback"]]

/-- C7 (counterexample): pattern 2 has a mapping hit ("v2"), but
`find_first` returns pattern 1's document-wide fallback ("fallback"):
each pattern's fallback is consulted before the next pattern's mapping
lookup, so an earlier pattern's fallback hit pre-empts a later pattern's
mapping hit — contradicting the claim. -/
theorem c7_pattern_order_counterexample :
    (c7kv.find? (fun e => reSearch c7p2 e.1 && e.2 ≠ "")).isSome = true ∧
    docFallback c7p1 c7doc = some "fallback" ∧
    find_first [c7p1, c7p2] c7kv c7doc = some "fallback" := by
  exact ⟨rfl, rfl, rfl⟩

/-- C7 (amended): for each pattern in declared order, the harvested
mapping is consulted first and then that same pattern's document-wide
fallback; only if both miss does resolution move to the next pattern.
Hence a mapping hit of the current pattern wins, its fallback hit wins
over everything later, and only a double miss defers. -/
theorem c7_pattern_order_amended (p : Re) (ps : List Re)
    (kv : List (String × String)) (roots : List Node) :
    (∀ e, kv.find? (fun e => reSearch p e.1 && e.2 ≠ "") = some e →
      find_first (p :: ps) kv roots = some e.2) ∧
    (kv.find? (fun e => reSearch p e.1 && e.2 ≠ "") = none →
      ∀ t, docFallback p roots = some t →
        find_first (p :: ps) kv roots = some t) ∧
    (kv.find? (fun e => reSearch p e.1 && e.2 ≠ "") = none →
      docFallback p roots = none →
      find_first (p :: ps) kv roots = find_first ps kv roots) := by
  refine ⟨?_, ?_, ?_⟩
  · intro e he
    unfold find_first
    rw [he]
  · intro hk t ht
    unfold find_first
    rw [hk, ht]
  · intro hk ht
    conv_lhs => unfold find_first
    rw [hk, ht]

/-- C7 (witness): the amended theorem applied at the concrete fixtures:
pattern 1 misses the mapping, and its fallback hit is the result. -/
theorem c7_pattern_order_amended_witness :
    find_first [c7p1, c7p2] c7kv c7doc = some "fallback" :=
  (c7_pattern_order_amended c7p1 [c7p2] c7kv c7doc).2.1 rfl "fallback" rfl

/-! ### C9 — the homeowner-exemption tristate -/

/-- Projection of a successful parse at the exemption field: it is
exactly the affirmative-token test of the resolved label text, `none`
when no label text was resolved. -/
theorem parse_ok_hx (roots : List Node) (r : ParsedRecord)
    (h : parse_property_page roots = .ok r) :
    r.homeowner_exemption =
      match find_first aliases_hx (harvest roots) roots with
      | none => none
      | some t => if t = "" then none else some (reSearch pat_affirmative t) := by
  simp only [parse_property_page] at h
  cases h1 : normalize_money (find_first aliases_living (harvest roots) roots) with
  | error e => simp only [h1] at h; simp at h
  | ok v1 =>
  simp only [h1] at h
  cases h2 : normalize_money (find_first aliases_lot (harvest roots) roots) with
  | error e => simp only [h2] at h; simp at h
  | ok v2 =>
  simp only [h2] at h
  cases h3 : normalize_money (find_first aliases_price (harvest roots) roots) with
  | error e => simp only [h3] at h; simp at h
  | ok v3 =>
  simp only [h3] at h
  cases h4 : normalize_money (find_first aliases_land (harvest roots) roots) with
  | error e => simp only [h4] at h; simp at h
  | ok v4 =>
  simp only [h4] at h
  cases h5 : normalize_money (find_first aliases_impr (harvest roots) roots) with
  | error e => simp only [h5] at h; simp at h
  | ok v5 =>
  simp only [h5] at h
  cases h6 : normalize_money (find_first aliases_total (harvest roots) roots) with
  | error e => simp only [h6] at h; simp at h
  | ok v6 =>
  simp only [h6] at h
  injection h with h7
  rw [← h7]

/-- C9: the homeowner-exemption field is `some true` exactly when the
resolved label text contains an affirmative yes/y/true word
(case-insensitive, `\b(yes|y|true)\b`), an explicit `some false` when a
(non-empty) label text is present but non-affirmative, and `none`
exactly when no label text was resolved; "Yes" is affirmative and "No"
is not. -/
theorem c9_exemption_tristate (roots : List Node) (r : ParsedRecord)
    (h : parse_property_page roots = .ok r) :
    (r.homeowner_exemption = none ↔
      find_first aliases_hx (harvest roots) roots = none) ∧
    (∀ t, find_first aliases_hx (harvest roots) roots = some t →
      r.homeowner_exemption = some (reSearch pat_affirmative t)) ∧
    reSearch pat_affirmative "Yes" = true ∧
    reSearch pat_affirmative "No" = false := by
  have hx := parse_ok_hx roots r h
  refine ⟨⟨?_, ?_⟩, ?_, rfl, rfl⟩
  · intro hnone
    cases hf : find_first aliases_hx (harvest roots) roots with
    | none => rfl
    | some t =>
      rw [hf] at hx
      dsimp only at hx
      have hne := find_first_ne_empty _ _ _ _ hf
      rw [if_neg hne] at hx
      rw [hnone] at hx
      cases hx
  · intro hnone
    rw [hnone] at hx
    exact hx
  · intro t ht
    rw [ht] at hx
    dsimp only at hx
    have hne := find_first_ne_empty _ _ _ _ ht
    rw [if_neg hne] at hx
    exact hx

/-- The document used to witness C9: a single row whose label is
`Homeowner's Exemption` and whose value is "No". -/
def hxNoDoc : List Node := [.elem "table" [row2 hxLabel "No"]]

/-- The record `parse_property_page` produces for `hxNoDoc`. -/
def hxNoRec : ParsedRecord := { nullRecord with homeowner_exemption := some false }

/-- C9 (witness): on a document whose exemption value is "No", the field
is an explicit `some false` (present-but-negative, not null). -/
theorem c9_exemption_tristate_witness :
    parse_property_page hxNoDoc = .ok hxNoRec ∧
    hxNoRec.homeowner_exemption = some false := by
  refine ⟨rfl, ?_⟩
  have h2 := (c9_exemption_tristate hxNoDoc hxNoRec rfl).2.1 "No" rfl
  exact h2.trans (by rfl)

/-! ### C6 — geocode candidate handling -/

/-- A candidate with the given score (concrete fixture). -/
def candWithScore (n : Int) : Cand := ⟨some n, some ⟨some 1, some 2⟩, some [], none⟩

/-- An environment whose geocoder returns only candidates scoring below
70 (and whose other endpoints are empty). -/
def envAllLow : Env :=
  { parcelByApn := fun _ => .ok []
    parcelByApnLike := fun _ => .ok []
    geocode := fun _ => .ok [candWithScore 50, candWithScore 69]
    parcelByPoint := fun _ _ _ => .ok []
    fetchAssessor := fun _ => .error () }

/-- C6: geocode candidate handling — (1) every surviving candidate
scores at least 70 (below-70 candidates are discarded); (2) every
candidate scoring at least 70 survives; (3) the sorted survivors are in
descending score order; (4) sorting permutes, never drops or adds; (5)
stability: in the index-tagged sort, equal scores keep their original
service order; (6) the top survivor of the sorted list is the candidate
returned (after the setdefault patches); (7) scores [95, 69, 80] give
the surviving sorted list [95, 80]; (8) when every candidate scores
below 70 the pipeline returns the all-null result (null identifier,
feature, situs and markup). -/
theorem c6_geocode_handling :
    (∀ l c, c ∈ viableCands l → 70 ≤ effScore c) ∧
    (∀ l c, c ∈ l → 70 ≤ effScore c → c ∈ viableCands l) ∧
    (∀ l : List Cand, (candSort l).Sorted (fun a b => effScore b ≤ effScore a)) ∧
    (∀ l : List Cand, (candSort l).Perm l) ∧
    (∀ l : List Cand, (candSortTagged l).Pairwise (fun a b =>
      effScore b.2 < effScore a.2 ∨ (effScore a.2 = effScore b.2 ∧ a.1 < b.1))) ∧
    (∀ env q cands c rest, env.geocode q = .ok cands →
      candSort (viableCands cands) = c :: rest →
      arcgis_geocode_address q env = some (patchCand c)) ∧
    ((candSort (viableCands [candWithScore 95, candWithScore 69, candWithScore 80])).map
      effScore = [95, 80]) ∧
    ((search_property "70 W Hedding St, San Jose, CA" envAllLow).1 =
      .ok ⟨none, none, none, none⟩) := by
  refine ⟨?_, ?_, ?_, ?_, ?_, ?_, rfl, rfl⟩
  · intro l c hc
    have := (List.mem_filter.mp hc).2
    simpa using this
  · intro l c hc hs
    exact List.mem_filter.mpr ⟨hc, by simpa using hs⟩
  · intro l
    have hs := List.sorted_insertionSort tagLE l.enum
    show ((l.enum.insertionSort tagLE).map Prod.snd).Pairwise _
    rw [List.pairwise_map]
    exact hs.imp (fun hab => by unfold tagLE at hab; omega)
  · intro l
    have hp : (l.enum.insertionSort tagLE).Perm l.enum :=
      List.perm_insertionSort tagLE l.enum
    have := hp.map Prod.snd
    rw [List.enum_map_snd] at this
    exact this
  · intro l
    have hs : (candSortTagged l).Pairwise tagLE :=
      List.sorted_insertionSort tagLE l.enum
    have hperm : (candSortTagged l).Perm l.enum :=
      List.perm_insertionSort tagLE l.enum
    have hnodup : ((candSortTagged l).map Prod.fst).Nodup :=
      ((hperm.map Prod.fst).nodup_iff).mpr (List.nodup_enum_map_fst l)
    have hne : (candSortTagged l).Pairwise (fun a b => a.1 ≠ b.1) :=
      List.pairwise_map.mp hnodup
    exact (hs.and hne).imp (fun hab => by
      obtain ⟨h1, h2⟩ := hab
      unfold tagLE at h1
      rcases h1 with h1 | ⟨heq, hle⟩
      · exact Or.inl h1
      · exact Or.inr ⟨heq, lt_of_le_of_ne hle h2⟩)
  · intro env q cands c rest hg hsort
    unfold arcgis_geocode_address
    simp only [hg, hsort, List.head?_cons]

/-- C6 (witness): the threshold conjuncts applied at the concrete
candidate list with scores [95, 69, 80]. -/
theorem c6_geocode_handling_witness :
    70 ≤ effScore (candWithScore 95) ∧
    candWithScore 95 ∈
      viableCands [candWithScore 95, candWithScore 69, candWithScore 80] :=
  ⟨c6_geocode_handling.1 [candWithScore 95, candWithScore 69, candWithScore 80]
      (candWithScore 95) (by decide),
   c6_geocode_handling.2.1 [candWithScore 95, candWithScore 69, candWithScore 80]
      (candWithScore 95) (by decide) (by decide)⟩

/-! ### C1 — extraction of the embedded sample document -/

/-- The record that `parse_property_page` actually produces for
`DEMO_TREE`.  The `<br>` line breaks inside the situs and mailing cells
become single spaces under `get_text(" ", strip=True)`, so the situs
value is the one-line string "123 Sample St San Jose, CA 95123": its
first-comma split puts "123 Sample St San Jose" in the street and leaves
no parsable "city, ST zip" tail (city and zip null, state defaulted to
"CA"); the mailing value likewise collapses to one line, whose trailing
"…, CA 95123" parses with everything before the comma as the city and no
street.  No "Owner Name"/"Assessee Name" label exists in the document,
so the owner list is empty and the owner type null. -/
def demoParsed : ParsedRecord :=
  { apn := some "235-12-003"
    situs_address := ⟨some "123 Sample St San Jose", none, some "CA", none⟩
    owner_names := []
    owner_mailing_address :=
      ⟨none, some "JANE DOE TRUST PO BOX 1234 San Jose", some "CA", some "95123"⟩
    owner_type := none
    last_transfer := ⟨some "06/15/2021", some "12345678", some 1250000⟩
    assessed_values := ⟨some 900000, some 450000, some 1350000, some 2024⟩
    homeowner_exemption := some true
    property_details := ⟨some "SFR", some 1978, some 1234, some 6098⟩
    recorder_doc_url := some RECORDER_SEARCH_LANDING }

/-- The situs address the claim (and the spec) asserts for the sample
document. -/
def c1ClaimSitus : AddrRec :=
  ⟨some "123 Sample St", some "San Jose", some "CA", some "95123"⟩

set_option maxRecDepth 8000

/-- C1 (counterexample): extraction of `DEMO_TREE` does not yield the
record the claim states.  The claimed record is taken to agree with the
actual one on every field the claim does not pin down (mailing address,
recorder URL value), so the disagreement is exactly the claimed
situs/owner fields: the actual situs city is null (not "San Jose"), the
actual owner list is empty (not ["JANE DOE TRUST"]) and the owner type
null (not "trust"). -/
theorem c1_demo_counterexample :
    (parse_property_page DEMO_TREE).map
      (fun r => (r.situs_address, r.owner_names, r.owner_type)) =
      .ok (⟨some "123 Sample St San Jose", none, some "CA", none⟩, [], none) ∧
    parse_property_page DEMO_TREE ≠
      .ok { demoParsed with
            situs_address := c1ClaimSitus
            owner_names := ["JANE DOE TRUST"]
            owner_type := some "trust" } := by
  constructor
  · rfl
  · intro h
    rw [show parse_property_page DEMO_TREE = .ok demoParsed from rfl] at h
    injection h with h2
    have h3 := congrArg ParsedRecord.owner_names h2
    simp [demoParsed] at h3

/-- C1 (amended): extraction of the fixed embedded sample document
yields apn "235-12-003", situs_address {street "123 Sample St San Jose",
city null, state "CA", zip null}, empty owner_names, owner_type null,
homeowner_exemption true, year_built 1978, living_sqft 1234, lot_sqft
6098, assessed values {900000, 450000, 1350000, 2024}, last transfer
{"06/15/2021", "12345678", 1250000}, and a non-null recorder_doc_url
(the fixed records-search landing page). -/
theorem c1_demo_extraction_amended :
    parse_property_page DEMO_TREE = .ok demoParsed ∧
    demoParsed.recorder_doc_url ≠ none := by
  exact ⟨rfl, by simp [demoParsed]⟩

/-! ### C4 — totality of the extraction engine -/

/-- Does normalizing this extracted text as a money value raise
`ValueError` (its leftmost digit-or-comma run contains no digit)? -/
def moneyBadB (v : Option String) : Bool := !(exOk (normalize_money v))

/-- One of the six money-like fields of the document makes
`normalize_money` raise. -/
def moneyFieldsBad (roots : List Node) : Bool :=
  moneyBadB (find_first aliases_living (harvest roots) roots) ||
  moneyBadB (find_first aliases_lot (harvest roots) roots) ||
  moneyBadB (find_first aliases_price (harvest roots) roots) ||
  moneyBadB (find_first aliases_land (harvest roots) roots) ||
  moneyBadB (find_first aliases_impr (harvest roots) roots) ||
  moneyBadB (find_first aliases_total (harvest roots) roots)

/-- A document on which `parse_property_page` raises: a lot-area value
consisting of a single comma, whose `[\d,]+` run de-commas to the empty
string handed to `int()`. -/
def commaDoc : List Node :=
  [.elem "table" [.elem "tr" [.elem "th" [.text "Lot Area"],
                              .elem "td" [.text ","]]]]

/-- C4 (counterexample): the extraction engine is not total — on a
document whose lot-area cell reads ",", `parse_property_page` raises
`ValueError` (Python: `int("")`), so an exception does escape. -/
theorem c4_totality_counterexample :
    parse_property_page commaDoc = .error .valueError := rfl

/-- C4 (amended): the extraction engine is total except for the
`ValueError` escaping from `normalize_money` when a money-like field's
extracted text has a leftmost digit-or-comma run containing no digit:
extraction fails exactly when one of the six money fields (living area,
lot area, sales price, land, improvements, total) hits that case, and on
the empty document it returns the fully-keyed all-null record (never a
missing key — the record type is fully keyed by construction). -/
theorem c4_totality_amended :
    parse_property_page [] = .ok nullRecord ∧
    (∀ roots, exOk (parse_property_page roots) = false ↔
      moneyFieldsBad roots = true) := by
  refine ⟨rfl, ?_⟩
  intro roots
  unfold parse_property_page moneyFieldsBad
  cases h1 : normalize_money (find_first aliases_living (harvest roots) roots) with
  | error e => simp [h1, moneyBadB, exOk]
  | ok v1 =>
  cases h2 : normalize_money (find_first aliases_lot (harvest roots) roots) with
  | error e => simp [h1, h2, moneyBadB, exOk]
  | ok v2 =>
  cases h3 : normalize_money (find_first aliases_price (harvest roots) roots) with
  | error e => simp [h1, h2, h3, moneyBadB, exOk]
  | ok v3 =>
  cases h4 : normalize_money (find_first aliases_land (harvest roots) roots) with
  | error e => simp [h1, h2, h3, h4, moneyBadB, exOk]
  | ok v4 =>
  cases h5 : normalize_money (find_first aliases_impr (harvest roots) roots) with
  | error e => simp [h1, h2, h3, h4, h5, moneyBadB, exOk]
  | ok v5 =>
  cases h6 : normalize_money (find_first aliases_total (harvest roots) roots) with
  | error e => simp [h1, h2, h3, h4, h5, h6, moneyBadB, exOk]
  | ok v6 => simp [h1, h2, h3, h4, h5, h6, moneyBadB, exOk]

/-! ### C2 — parcel-id query with no resolvable feature -/

/-- An environment in which every feature/geocode query returns an empty
result and the assessor fetch fails at the transport layer. -/
def envEmptyFeat : Env :=
  { parcelByApn := fun _ => .ok []
    parcelByApnLike := fun _ => .ok []
    geocode := fun _ => .ok []
    parcelByPoint := fun _ _ _ => .ok []
    fetchAssessor := fun _ => .error () }

/-- C2 (counterexample): for the parcel-id query "123456789" with no
feature resolvable by either query, the record is NOT all-null (its apn
is the normalized query "123-45-6789"), the record-page fetch IS
attempted (the trace ends in a page fetch — the identifier always exists
on the parcel path because it is taken from the query itself), and the
exit code is 0, not 2. -/
theorem c2_parcel_no_feature_counterexample :
    (main_run "123456789" envEmptyFeat).1 =
      .ok ({ nullRecord with apn := some "123-45-6789" }, 0) ∧
    (main_run "123456789" envEmptyFeat).2 =
      [Call.byApn "123-45-6789", Call.byLike "123456789",
       Call.pageFetch "123-45-6789"] := ⟨rfl, rfl⟩

/-- C2 (amended): for every query that classifies as a parcel id and for
which neither feature query yields a feature and the page fetch fails,
the resolved identifier is the normalized query itself, so the
record-page fetch is still attempted, the written record carries that
identifier with every other leaf null, and the process exits 0 (exit
code 2 is unreachable on the parcel-id path). -/
theorem c2_parcel_no_feature_amended (query : String) (env : Env)
    (h1 : is_probable_apn (pyStrip query) = true)
    (h2 : env.parcelByApn (normalize_apn (pyStrip query)) = .ok [])
    (h3 : env.parcelByApnLike (digitsOf (pyStrip query)) = .ok [])
    (h4 : env.fetchAssessor (normalize_apn (pyStrip query)) = .error ()) :
    main_run query env =
      (.ok ({ nullRecord with apn := some (normalize_apn (pyStrip query)) }, 0),
       [Call.byApn (normalize_apn (pyStrip query)),
        Call.byLike (digitsOf (pyStrip query)),
        Call.pageFetch (normalize_apn (pyStrip query))]) := by
  have hne := normalize_apn_ne_empty _ h1
  unfold main_run search_property
  simp only [h1, if_true]
  unfold arcgis_query_parcel_by_apn arcgis_query_parcel_by_apn_like featuresHead
  rw [h2, h3]
  simp [fetchStep, pyTruthyOS, hne, h4, optFeatTruthy, htmlTruthy, seedRecord,
    normalize_result, nullRecord, nullAddr]

/-- C2 (witness): the amended theorem applied at the concrete query
"123456789" and the empty-response environment. -/
theorem c2_parcel_no_feature_amended_witness :
    main_run "123456789" envEmptyFeat =
      (.ok ({ nullRecord with apn := some "123-45-6789" }, 0),
       [Call.byApn "123-45-6789", Call.byLike "123456789",
        Call.pageFetch "123-45-6789"]) :=
  c2_parcel_no_feature_amended "123456789" envEmptyFeat rfl rfl rfl rfl

/-! ### C3 — the substring (LIKE) fallback on the parcel-id path -/

/-- C3 (amended): on the parcel-id path, when the exact-match query
returns no feature and the substring query returns one feature, exactly
two feature-query calls are made and the substring-matched feature is
kept — but the final resolved identifier is the normalized query, NOT
the feature's APN attribute (the parcel path never reads the identifier
back out of the feature). -/
theorem c3_like_fallback_amended (query : String) (env : Env) (f : Feature)
    (h1 : is_probable_apn (pyStrip query) = true)
    (h2 : env.parcelByApn (normalize_apn (pyStrip query)) = .ok [])
    (h3 : env.parcelByApnLike (digitsOf (pyStrip query)) = .ok [f]) :
    (∃ r, (search_property query env).1 = .ok r ∧
      r.apn = some (normalize_apn (pyStrip query)) ∧
      r.parcel_feature = some f) ∧
    featureQueryCount (search_property query env).2 = 2 := by
  have hne := normalize_apn_ne_empty _ h1
  unfold search_property
  simp only [h1, if_true]
  unfold arcgis_query_parcel_by_apn arcgis_query_parcel_by_apn_like featuresHead
  rw [h2, h3]
  cases hf : env.fetchAssessor (normalize_apn (pyStrip query)) with
  | ok m =>
    simp [fetchStep, pyTruthyOS, hne, hf, optFeatTruthy, featureQueryCount,
      isFeatureQuery]
  | error u =>
    simp [fetchStep, pyTruthyOS, hne, hf, optFeatTruthy, featureQueryCount,
      isFeatureQuery]

/-- The feature returned by the substring query in the C3 fixtures; its
APN attribute ("999-99-9999") differs from the normalized query. -/
def fLike999 : Feature := ⟨some [("APN", some "999-99-9999")], none⟩

/-- An environment whose exact-match query is empty and whose substring
query returns `fLike999`. -/
def envLike999 : Env := { envEmptyFeat with parcelByApnLike := fun _ => .ok [fLike999] }

/-- C3 (counterexample): with an exact-match miss and a substring hit on
a feature whose APN attribute is "999-99-9999", exactly two
feature-query calls are made (that part of the claim holds), but the
pipeline's final identifier is the normalized query "123-45-6789", which
differs from the feature's APN attribute — refuting the claim's
"final resolved identifier equals that feature's identifier". -/
theorem c3_like_fallback_counterexample :
    (search_property "123456789" envLike999).1.map
      (fun r => (r.apn, r.parcel_feature)) =
      .ok (some "123-45-6789", some fLike999) ∧
    attrGetS [("APN", some "999-99-9999")] "APN" = some "999-99-9999" ∧
    (some "123-45-6789" : Option String) ≠ some "999-99-9999" ∧
    featureQueryCount (search_property "123456789" envLike999).2 = 2 := by
  refine ⟨rfl, rfl, by decide, rfl⟩

/-- C3 (witness): the amended theorem applied at the concrete fixtures. -/
theorem c3_like_fallback_amended_witness :
    featureQueryCount (search_property "123456789" envLike999).2 = 2 :=
  (c3_like_fallback_amended "123456789" envLike999 fLike999 rfl rfl rfl).2

/-! ### C5 — exception safety of `search_property` -/

/-- The feature list delivered by a transport result (empty on a caught
transport failure). -/
def okFeats : Except Unit (List Feature) → List Feature
  | .error _ => []
  | .ok fs => fs

/-- A feature shape that the address path consumes without raising: an
`attributes` mapping is present and carries an "APN" key. -/
def goodFeat (f : Feature) : Prop :=
  ∃ attrs, f.attributes = some attrs ∧
    (attrs.find? (fun e => e.1 = "APN")).isSome = true

/-- Every feature any of the three feature endpoints can deliver is
well-shaped. -/
def EnvWellShaped (env : Env) : Prop :=
  (∀ s f, f ∈ okFeats (env.parcelByApn s) → goodFeat f) ∧
  (∀ s f, f ∈ okFeats (env.parcelByApnLike s) → goodFeat f) ∧
  (∀ x y w f, f ∈ okFeats (env.parcelByPoint x y w) → goodFeat f)

/-- A feature selected by `feats[0]` comes from the delivered list. -/
theorem featuresHead_mem (e : Except Unit (List Feature)) (f : Feature)
    (h : featuresHead e = some f) : f ∈ okFeats e := by
  cases e with
  | error u => simp [featuresHead] at h
  | ok fs =>
    cases fs with
    | nil => simp [featuresHead] at h
    | cons a t =>
      simp [featuresHead] at h
      simp [okFeats, h]

/-- The common pipeline tail never raises. -/
theorem searchFinish_ok (env : Env) (feature : Option Feature)
    (resolved : Option String) (tr : List Call) :
    exOk (searchFinish env feature resolved tr).1 = true := rfl

/-- The spatial-intersect step never raises when every point-query
feature is well-shaped. -/
theorem addrSpatial_ok (env : Env) (geo : PCand) (feature : Option Feature)
    (resolved : Option String) (tr : List Call)
    (hp : ∀ x y w f2, f2 ∈ okFeats (env.parcelByPoint x y w) → goodFeat f2) :
    exOk (addrSpatial env geo feature resolved tr).1 = true := by
  unfold addrSpatial
  by_cases ht : optFeatTruthy feature = true
  · simp [ht, searchFinish_ok]
  · have hb : optFeatTruthy feature = false := eq_false_of_ne_true ht
    simp only [hb, Bool.not_false, if_true]
    cases hx : geo.location.x with
    | none => exact searchFinish_ok env feature resolved tr
    | some x =>
      cases hy : geo.location.y with
      | none => exact searchFinish_ok env feature resolved tr
      | some y =>
        cases hq : arcgis_query_parcel_by_point x y
            (match geo.spatialReference with | some w => w | none => 4326) env with
        | none => simp [hq, optFeatTruthy, searchFinish_ok]
        | some ft =>
          simp only [hq]
          by_cases ht2 : featTruthy ft = true
          · obtain ⟨attrs, ha, hfind⟩ := hp _ _ _ ft (featuresHead_mem _ _ hq)
            obtain ⟨e, he⟩ := Option.isSome_iff_exists.mp hfind
            simp [optFeatTruthy, ht2, ha, he, searchFinish_ok]
          · have hb2 : featTruthy ft = false := eq_false_of_ne_true ht2
            simp [optFeatTruthy, hb2, searchFinish_ok]

/-- C5 (amended): `search_property` lets no exception escape provided
every feature the service can deliver carries an attributes mapping with
an APN key; transport failures at each call site were already converted
to null results by the per-call handlers.  Without that shape condition
the address path raises `KeyError` (see the counterexample). -/
theorem c5_no_exception_amended (query : String) (env : Env)
    (h : EnvWellShaped env) :
    exOk (search_property query env).1 = true := by
  obtain ⟨hA, hL, hP⟩ := h
  unfold search_property
  cases hq : is_probable_apn (pyStrip query) with
  | true => simp only [hq]; rfl
  | false =>
    simp only [hq, Bool.false_eq_true, if_false]
    cases hg : arcgis_geocode_address (pyStrip query) env with
    | none => simp [hg, exOk]
    | some geo =>
      simp only [hg]
      by_cases hag : pyTruthyOS (pyOrOS (attrGetS geo.attributes "APN")
          (attrGetS geo.attributes "apn")) = true
      · simp only [hag, if_true]
        by_cases h1t : optFeatTruthy (arcgis_query_parcel_by_apn
            (normalize_apn ((pyOrOS (attrGetS geo.attributes "APN")
              (attrGetS geo.attributes "apn")).getD "")) env) = true
        · simp only [h1t, Bool.not_true, Bool.false_eq_true, if_false]
          cases hf1 : arcgis_query_parcel_by_apn
              (normalize_apn ((pyOrOS (attrGetS geo.attributes "APN")
                (attrGetS geo.attributes "apn")).getD "")) env with
          | none => rw [hf1] at h1t; simp [optFeatTruthy] at h1t
          | some ft =>
            rw [hf1] at h1t
            simp only [h1t, if_true]
            obtain ⟨attrs, ha, hfind⟩ := hA _ ft (featuresHead_mem _ _ hf1)
            simp only [optFeatTruthy, ha]
            exact addrSpatial_ok env geo (some ft) (attrGetS attrs "APN") _ hP
        · have hb : optFeatTruthy (arcgis_query_parcel_by_apn
              (normalize_apn ((pyOrOS (attrGetS geo.attributes "APN")
                (attrGetS geo.attributes "apn")).getD "")) env) = false :=
            eq_false_of_ne_true h1t
          simp only [hb, Bool.not_false, if_true]
          cases hf2 : arcgis_query_parcel_by_apn_like
              (digitsOf (normalize_apn ((pyOrOS (attrGetS geo.attributes "APN")
                (attrGetS geo.attributes "apn")).getD ""))) env with
          | none =>
            simp only [hf2, optFeatTruthy, Bool.false_eq_true, if_false]
            exact addrSpatial_ok env geo none none _ hP
          | some ft =>
            simp only [hf2]
            by_cases ht2 : featTruthy ft = true
            · simp only [optFeatTruthy, ht2, if_true]
              obtain ⟨attrs, ha, hfind⟩ := hL _ ft (featuresHead_mem _ _ hf2)
              simp only [ha]
              exact addrSpatial_ok env geo (some ft) (attrGetS attrs "APN") _ hP
            · have hb2 : featTruthy ft = false := eq_false_of_ne_true ht2
              simp only [optFeatTruthy, hb2, Bool.false_eq_true, if_false]
              exact addrSpatial_ok env geo (some ft) none _ hP
      · have hagf : pyTruthyOS (pyOrOS (attrGetS geo.attributes "APN")
            (attrGetS geo.attributes "apn")) = false := eq_false_of_ne_true hag
        simp only [hagf, Bool.false_eq_true, if_false]
        exact addrSpatial_ok env geo none none _ hP

/-- A geocode candidate carrying an APN attribute (C5 fixture). -/
def geoCandAPN : Cand :=
  ⟨some 95, some ⟨some 1, some 2⟩, some [("APN", some "12345678")], none⟩

/-- A truthy feature whose dict has no "attributes" key. -/
def fNoAttrs : Feature := ⟨none, some ()⟩

/-- An environment whose geocoder yields `geoCandAPN` and whose
exact-match query yields the attributes-less feature. -/
def envKeyErr : Env :=
  { envEmptyFeat with
    geocode := fun _ => .ok [geoCandAPN]
    parcelByApn := fun _ => .ok [fNoAttrs] }

/-- C5 (counterexample): on the address path, when the geocoder provides
an APN and the exact-match query returns a (truthy) feature whose dict
lacks the "attributes" key, `feature["attributes"]` raises `KeyError`,
which escapes `search_property` — the claim's "never lets an exception
escape ... including features lacking an attributes key" is false. -/
theorem c5_no_exception_counterexample :
    (search_property "70 W Hedding St" envKeyErr).1 =
      .error (.keyError "attributes") := rfl

/-- C5 (witness): the amended theorem applied at the empty-response
environment, which is trivially well-shaped. -/
theorem c5_no_exception_amended_witness :
    exOk (search_property "70 W Hedding St" envEmptyFeat).1 = true :=
  c5_no_exception_amended "70 W Hedding St" envEmptyFeat
    ⟨fun s f hf => by simp [envEmptyFeat, okFeats] at hf,
     fun s f hf => by simp [envEmptyFeat, okFeats] at hf,
     fun x y w f hf => by simp [envEmptyFeat, okFeats] at hf⟩
